import Mathlib

/-!
Verification development for the opennextjs-azure adapter layer.

The definitions below are a shallow embedding of the repository's
request/response wrapper (`src/adapters/wrappers/azure-functions.ts`),
the image-optimization wrapper and cached handler, and the Azure
storage cache backends (incremental blob cache, table tag cache,
queue revalidation).  JavaScript `Record<string, string>` objects are
modelled as association lists, Node `Buffer`s as lists of byte values
(`Nat` below 256), thrown values as an explicit error type, and every
fallible storage call as an injected `Except` outcome.
-/

/-! ## Small JavaScript-semantics helpers -/

/-- JS string truthiness fallback: `v || dflt` on a possibly-undefined string
(`none` models `undefined`; the empty string is falsy). -/
def jsOrDefault (v : Option String) (dflt : String) : String :=
  match v with
  | some s => if s = "" then dflt else s
  | none => dflt

/-- JS template-literal interpolation of a possibly-undefined value:
`undefined` is rendered as the text `"undefined"`. -/
def jsInterp (v : Option String) : String :=
  v.getD "undefined"

/-- `pre` is a prefix of `s`, on the character lists. Models an anchored
`^...` regular-expression match and `String.prototype.startsWith`. -/
def strStartsWith (s pre : String) : Bool :=
  pre.data.isPrefixOf s.data

/-- `suf` is a suffix of `s`, on the character lists. -/
def strEndsWith (s suf : String) : Bool :=
  suf.data.isSuffixOf s.data

/-- Join a list of strings with a separator, like `Array.prototype.join`. -/
def jsJoin (sep : String) : List String → String
  | [] => ""
  | [x] => x
  | x :: y :: rest => x ++ sep ++ jsJoin sep (y :: rest)

/-! ## UTF-8 encoding and decoding (Buffer semantics) -/

/-- UTF-8 encoding of a single code point, 1 to 4 bytes. -/
def utf8EncodeChar (c : Char) : List Nat :=
  let n := c.toNat
  if n < 128 then [n]
  else if n < 2048 then [192 + n / 64, 128 + n % 64]
  else if n < 65536 then [224 + n / 4096, 128 + (n / 64) % 64, 128 + n % 64]
  else [240 + n / 262144, 128 + (n / 4096) % 64, 128 + (n / 64) % 64, 128 + n % 64]

/-- UTF-8 encoding of a string, as `Buffer.from(s, "utf8")` produces. -/
def utf8Encode (s : String) : List Nat :=
  (s.data.map utf8EncodeChar).flatten

/-- The Unicode replacement character emitted for malformed sequences. -/
def replChar : Char := Char.ofNat 65533

/-- Is the byte a UTF-8 continuation byte (`10xxxxxx`)? -/
def isContByte (b : Nat) : Bool := 128 ≤ b && b < 192

/-- Fuel-indexed UTF-8 decoder; the fuel bounds the number of decoding
steps (each step consumes at least one byte). -/
def utf8DecodeAux : Nat → List Nat → List Char
  | 0, _ => []
  | _ + 1, [] => []
  | fuel + 1, b0 :: rest =>
    if b0 < 128 then Char.ofNat b0 :: utf8DecodeAux fuel rest
    else if b0 < 194 then replChar :: utf8DecodeAux fuel rest
    else if b0 < 224 then
      match rest with
      | b1 :: rest2 =>
        if isContByte b1 then
          Char.ofNat ((b0 - 192) * 64 + (b1 - 128)) :: utf8DecodeAux fuel rest2
        else replChar :: utf8DecodeAux fuel rest
      | [] => [replChar]
    else if b0 < 240 then
      match rest with
      | b1 :: b2 :: rest3 =>
        if isContByte b1 && isContByte b2 then
          let v := (b0 - 224) * 4096 + (b1 - 128) * 64 + (b2 - 128)
          (if 2048 ≤ v && !(55296 ≤ v && v < 57344) then Char.ofNat v else replChar) ::
            utf8DecodeAux fuel rest3
        else replChar :: utf8DecodeAux fuel rest
      | _ => replChar :: utf8DecodeAux fuel rest
    else if b0 < 245 then
      match rest with
      | b1 :: b2 :: b3 :: rest4 =>
        if isContByte b1 && isContByte b2 && isContByte b3 then
          let v := (b0 - 240) * 262144 + (b1 - 128) * 4096 + (b2 - 128) * 64 + (b3 - 128)
          (if 65536 ≤ v && v < 1114112 then Char.ofNat v else replChar) ::
            utf8DecodeAux fuel rest4
        else replChar :: utf8DecodeAux fuel rest
      | _ => replChar :: utf8DecodeAux fuel rest
    else replChar :: utf8DecodeAux fuel rest

/-- Decode a byte list as UTF-8, as `Buffer.prototype.toString("utf8")` does. -/
def utf8ToString (bytes : List Nat) : String :=
  String.mk (utf8DecodeAux bytes.length bytes)

/-! ## Headers and JSON serialization -/

/-- Header maps (`Record<string, string>`) as association lists; an
assignment `obj[k] = v` overwrites in place or appends. -/
def setHdr (hs : List (String × String)) (k v : String) : List (String × String) :=
  if hs.any (fun p => p.1 = k) then
    hs.map (fun p => if p.1 = k then (k, v) else p)
  else hs ++ [(k, v)]

/-- Look a header up by exact key. -/
def getHdr (hs : List (String × String)) (k : String) : Option String :=
  (hs.find? (fun p => p.1 = k)).map Prod.snd

/-- JSON escaping of one character, as `JSON.stringify` performs on strings. -/
def jsonEscapeChar (c : Char) : String :=
  if c = '"' then "\\\""
  else if c = '\\' then "\\\\"
  else if c = '\n' then "\\n"
  else if c = '\r' then "\\r"
  else if c = '\t' then "\\t"
  else if c.toNat = 8 then "\\b"
  else if c.toNat = 12 then "\\f"
  else String.singleton c

/-- JSON string literal for `s`. -/
def jsonString (s : String) : String :=
  "\"" ++ String.join (s.data.map jsonEscapeChar) ++ "\""

/-- `JSON.stringify` of an object with string-or-undefined fields, in
insertion order; fields whose value is `undefined` are dropped. -/
def jsonObject (fields : List (String × Option String)) : String :=
  "\x7b" ++
    jsJoin "," (fields.filterMap
      (fun kv => kv.2.map (fun v => jsonString kv.1 ++ ":" ++ jsonString v))) ++
  "\x7d"

/-! ## Static asset patterns (azure-functions wrapper) -/

/-- The extension alternatives of the final `STATIC_ASSET_PATTERNS` regex. -/
def staticExtensions : List String :=
  ["svg", "png", "jpg", "jpeg", "gif", "webp", "ico", "woff", "woff2", "ttf", "eot"]

/-- Match of the regex `^\/[^\/]+\.(svg|png|...)$`: a slash, at least one
non-slash character, a dot, one of the listed extensions, end of string. -/
def matchesAssetExtension (p : String) : Bool :=
  match p.data with
  | '/' :: rest =>
    decide (¬ '/' ∈ rest) &&
      staticExtensions.any (fun ext =>
        ("." ++ ext).data.isSuffixOf rest && rest.length > ext.length + 1)
  | _ => false

/-- `isStaticAssetRequest`: does the path match one of `STATIC_ASSET_PATTERNS`? -/
def isStaticAssetRequest (pathname : String) : Bool :=
  strStartsWith pathname "/_next/static/" ||
  strStartsWith pathname "/_next/data/" ||
  pathname = "/favicon.ico" ||
  pathname = "/robots.txt" ||
  pathname = "/sitemap.xml" ||
  matchesAssetExtension pathname

/-! ## The azure-functions wrapper and its stream adapter -/

/-- `NULL_BODY_STATUSES`: HTTP status codes that must not carry a body. -/
def NULL_BODY_STATUSES : List Nat := [101, 204, 205, 304]

/-- The prelude handed to `streamCreator.writeHeaders`. -/
structure ResponsePrelude where
  statusCode : Nat
  cookies : List String
  headers : List (String × String)
deriving DecidableEq

/-- The response object assigned to `context.res`. -/
structure ContextRes where
  status : Nat
  headers : List (String × String)
  body : Option String
deriving DecidableEq

/-- A thrown JavaScript value: an `Error` instance (with message and
possibly-undefined stack) or any other value, kept as its string form. -/
inductive JsThrown where
  | errObj (message : String) (stack : Option String)
  | other (str : String)
deriving DecidableEq

/-- `error instanceof Error ? error.message : String(error)`. -/
def jsMessage : JsThrown → String
  | .errObj m _ => m
  | .other s => s

/-- `error instanceof Error ? error.stack : undefined`. -/
def jsStack : JsThrown → Option String
  | .errObj _ st => st
  | .other _ => none

/-- What the wrapped OpenNext handler does with the stream creator:
complete without a prelude, throw, or send one prelude and a sequence of
body chunks to the returned sink, possibly without ever closing it. -/
inductive HandlerBehavior where
  | noResponse
  | throws (e : JsThrown)
  | responds (p : ResponsePrelude) (chunks : List (List Nat)) (closed : Bool)

/-- `writeHeaders`'s header preparation: copy the prelude headers and, if
any cookies are present, fold them into one `set-cookie` value joined
by a comma and a space. -/
def responseHeadersOf (p : ResponsePrelude) : List (String × String) :=
  if p.cookies.length > 0 then setHdr p.headers "set-cookie" (jsJoin ", " p.cookies)
  else p.headers

/-- The catch-branch 500 response of the azure-functions wrapper: a JSON
body with `error` and `message` fields and the thrown stack, which
`JSON.stringify` keeps exactly when it is defined. -/
def errorResponse (e : JsThrown) : ContextRes :=
  { status := 500
    headers := [("content-type", "application/json")]
    body := some (jsonObject
      [("error", some "Internal Server Error"),
       ("message", some (jsMessage e)),
       ("stack", jsStack e)]) }

/-- One run of the azure-functions wrapper handler.  `accountName` is
`process.env.AZURE_STORAGE_ACCOUNT_NAME`, `rawPath` the converted
event's path.  The result is the final `context.res`; `none` means the
invocation never completes (the awaited stream-finished promise is
resolved only by the sink's `final` callback). -/
def azureFunctionsHandlerRun (accountName : Option String) (rawPath : String)
    (behavior : HandlerBehavior) : Option ContextRes :=
  if isStaticAssetRequest rawPath then
    some { status := 301
           headers :=
             [("Location",
               "https://" ++ jsInterp accountName ++ ".blob.core.windows.net/assets" ++ rawPath),
              ("Cache-Control", "public, max-age=31536000, immutable")]
           body := none }
  else
    match behavior with
    | .throws e => some (errorResponse e)
    | .noResponse =>
      some { status := 200, headers := [("content-type", "text/html")], body := some "" }
    | .responds p chunks closed =>
      if p.statusCode ∈ NULL_BODY_STATUSES then
        some { status := p.statusCode, headers := responseHeadersOf p, body := none }
      else if closed then
        some { status := p.statusCode
               headers := responseHeadersOf p
               body := some (utf8ToString chunks.flatten) }
      else none

/-! ## Azure Blob incremental cache (azure-blob.ts) -/

/-- A JavaScript error object as the storage SDK throws it: a possibly
present `statusCode` and a message. -/
structure ErrObj where
  statusCode : Option Nat
  message : String
deriving DecidableEq

/-- `getAzureConfig().storage.containerName`:
`process.env.AZURE_STORAGE_CONTAINER_NAME || "nextjs-cache"`. -/
def azureConfigContainerName (env : Option String) : String :=
  jsOrDefault env "nextjs-cache"

/-- `buildBlobKey`: `[prefix, type, NEXT_BUILD_ID, keyPart].filter(Boolean).join("/")`
with `prefix = storage.containerName || ""`, `type = "__fetch"` for fetch
entries, and `keyPart` carrying the `.{cacheType}` suffix for non-fetch
entries.  `envContainerName` and `nextBuildId` are the raw environment
variables (`none` models an unset variable, dropped by `filter(Boolean)`
just like an empty string). -/
def buildBlobKey (envContainerName : Option String) (nextBuildId : Option String)
    (key : String) (cacheType : String) : String :=
  let containerName := azureConfigContainerName envContainerName
  let pfx := if containerName = "" then "" else containerName
  let ty := if cacheType = "fetch" then "__fetch" else ""
  let keyPart := if cacheType = "fetch" then key else key ++ "." ++ cacheType
  jsJoin "/" (([some pfx, some ty, nextBuildId, some keyPart].filterMap id).filter
    (fun s => s ≠ ""))

/-- The blob key addressed by `AzureBlobIncrementalCache.get`; the optional
`cacheType` argument defaults to `"cache"`. -/
def incCacheGetBlobKey (envContainerName nextBuildId : Option String)
    (key : String) (cacheType : Option String) : String :=
  buildBlobKey envContainerName nextBuildId key (cacheType.getD "cache")

/-- The blob key addressed by `AzureBlobIncrementalCache.set`; the optional
`cacheType` argument defaults to `"cache"`. -/
def incCacheSetBlobKey (envContainerName nextBuildId : Option String)
    (key : String) (cacheType : Option String) : String :=
  buildBlobKey envContainerName nextBuildId key (cacheType.getD "cache")

/-- The download response inside `AzureBlobIncrementalCache.get`'s try
block: a possibly absent body stream and a last-modified time. -/
structure DownloadOk where
  readableStreamBody : Option (List (List Nat))
  lastModified : Option Nat

/-- `AzureBlobIncrementalCache.get`, with the blob download and the JSON
parse injected as outcomes.  Mirrors the source: a missing stream body
yields `null`; any thrown error is caught, logged unless its status code
is 404, and turned into `null`.  Returns the result together with the
log lines written. -/
def incCacheGet (download : Except ErrObj DownloadOk)
    (jsonParse : String → Except ErrObj String) :
    Except ErrObj (Option (String × Option Nat)) × List String :=
  match download with
  | .error e =>
    if e.statusCode = some 404 then (.ok none, [])
    else (.ok none, ["Failed to get from Azure Blob cache: " ++ e.message])
  | .ok d =>
    match d.readableStreamBody with
    | none => (.ok none, [])
    | some chunks =>
      match jsonParse (utf8ToString chunks.flatten) with
      | .error e =>
        if e.statusCode = some 404 then (.ok none, [])
        else (.ok none, ["Failed to get from Azure Blob cache: " ++ e.message])
      | .ok value => (.ok (some (value, d.lastModified)), [])

/-- `AzureBlobIncrementalCache.set`, with the blob upload injected as an
outcome: on failure the error is logged and then re-thrown. -/
def incCacheSet (upload : Except ErrObj Unit) : Except ErrObj Unit × List String :=
  match upload with
  | .ok _ => (.ok (), [])
  | .error e => (.error e, ["Failed to set Azure Blob cache: " ++ e.message])

/-! ## Azure Queue revalidation (azure-queue.ts) -/

/-- `AzureQueueRevalidation.send`: without a configured queue client the
message is skipped; with one, a failed `sendMessage` is logged and then
re-thrown. -/
def azureQueueSend (configured : Bool) (sendOutcome : Except ErrObj Unit) :
    Except ErrObj Unit × List String :=
  if !configured then
    (.ok (), ["Azure Queue not configured. Skipping revalidation message."])
  else
    match sendOutcome with
    | .ok _ => (.ok (), [])
    | .error e => (.error e, ["Failed to send revalidation message: " ++ e.message])

/-! ## Azure Table tag cache (azure-table.ts) -/

/-- The first failing upsert of the `writeTags` loop, if any. -/
def firstUpsertError : List (Except ErrObj Unit) → Option ErrObj
  | [] => none
  | .ok _ :: rest => firstUpsertError rest
  | .error e :: _ => some e

/-- `AzureTableTagCache.writeTags`, with one injected outcome per entity
upsert: the loop stops at the first failure, which the surrounding catch
logs and swallows, so the call itself always succeeds. -/
def tagCacheWriteTags (upserts : List (Except ErrObj Unit)) :
    Except ErrObj Unit × List String :=
  match firstUpsertError upserts with
  | none => (.ok (), [])
  | some e => (.ok (), ["Failed to write tags to Azure Table: " ++ e.message])

/-! ## SHA-256 (node:crypto `createHash("sha256")`, FIPS 180-4) -/

/-- Truncate to a 32-bit word. -/
def w32 (n : Nat) : Nat := n % 4294967296

/-- Right rotation of a 32-bit word. -/
def rotr (n x : Nat) : Nat := w32 ((x >>> n) ||| (x <<< (32 - n)))

/-- Bitwise complement of a 32-bit word. -/
def notw (x : Nat) : Nat := x ^^^ 4294967295

/-- The SHA-256 round constants. -/
def sha256K : List Nat :=
  [1116352408, 1899447441, 3049323471, 3921009573, 961987163, 1508970993,
   2453635748, 2870763221, 3624381080, 310598401, 607225278, 1426881987,
   1925078388, 2162078206, 2614888103, 3248222580, 3835390401, 4022224774,
   264347078, 604807628, 770255983, 1249150122, 1555081692, 1996064986,
   2554220882, 2821834349, 2952996808, 3210313671, 3336571891, 3584528711,
   113926993, 338241895, 666307205, 773529912, 1294757372, 1396182291,
   1695183700, 1986661051, 2177026350, 2456956037, 2730485921, 2820302411,
   3259730800, 3345764771, 3516065817, 3600352804, 4094571909, 275423344,
   430227734, 506948616, 659060556, 883997877, 958139571, 1322822218,
   1537002063, 1747873779, 1955562222, 2024104815, 2227730452, 2361852424,
   2428436474, 2756734187, 3204031479, 3329325298]

/-- The eight working variables of the compression function. -/
structure Hash8 where
  a : Nat
  b : Nat
  c : Nat
  d : Nat
  e : Nat
  f : Nat
  g : Nat
  h : Nat

/-- The SHA-256 initial hash value. -/
def sha256H0 : Hash8 :=
  ⟨1779033703, 3144134277, 1013904242, 2773480762,
   1359893119, 2600822924, 528734635, 1541459225⟩

/-- Big sigma-0. -/
def bSig0 (x : Nat) : Nat := rotr 2 x ^^^ rotr 13 x ^^^ rotr 22 x

/-- Big sigma-1. -/
def bSig1 (x : Nat) : Nat := rotr 6 x ^^^ rotr 11 x ^^^ rotr 25 x

/-- Small sigma-0. -/
def sSig0 (x : Nat) : Nat := rotr 7 x ^^^ rotr 18 x ^^^ (x >>> 3)

/-- Small sigma-1. -/
def sSig1 (x : Nat) : Nat := rotr 17 x ^^^ rotr 19 x ^^^ (x >>> 10)

/-- The choice function. -/
def chFn (x y z : Nat) : Nat := (x &&& y) ^^^ (notw x &&& z)

/-- The majority function. -/
def majFn (x y z : Nat) : Nat := (x &&& y) ^^^ (x &&& z) ^^^ (y &&& z)

/-- Extend 16 message words to the 64-entry message schedule. -/
def msgSchedule (ws : List Nat) : Array Nat :=
  (List.range 48).foldl
    (fun arr j =>
      let wv := fun k => arr.getD k 0
      arr.push (w32 (wv j + sSig0 (wv (j + 1)) + wv (j + 9) + sSig1 (wv (j + 14)))))
    ws.toArray

/-- One round of the compression function, consuming a `(K, W)` pair. -/
def compressStep (st : Hash8) (kw : Nat × Nat) : Hash8 :=
  let t1 := w32 (st.h + bSig1 st.e + chFn st.e st.f st.g + kw.1 + kw.2)
  let t2 := w32 (bSig0 st.a + majFn st.a st.b st.c)
  ⟨w32 (t1 + t2), st.a, st.b, st.c, w32 (st.d + t1), st.e, st.f, st.g⟩

/-- Compress one 16-word block into the running hash value. -/
def compressBlock (st : Hash8) (block : List Nat) : Hash8 :=
  let sched := msgSchedule block
  let fin := (sha256K.zip sched.toList).foldl compressStep st
  ⟨w32 (st.a + fin.a), w32 (st.b + fin.b), w32 (st.c + fin.c), w32 (st.d + fin.d),
   w32 (st.e + fin.e), w32 (st.f + fin.f), w32 (st.g + fin.g), w32 (st.h + fin.h)⟩

/-- Group bytes into big-endian 32-bit words. -/
def bytesToWords : List Nat → List Nat
  | a :: b :: c :: d :: rest => (a * 16777216 + b * 65536 + c * 256 + d) :: bytesToWords rest
  | _ => []

/-- Split a word list into 16-word blocks (fuel-indexed on the length). -/
def chunk16Aux : Nat → List Nat → List (List Nat)
  | 0, _ => []
  | _ + 1, [] => []
  | fuel + 1, w :: ws => ((w :: ws).take 16) :: chunk16Aux fuel ((w :: ws).drop 16)

/-- Split a word list into 16-word blocks. -/
def chunk16 (ws : List Nat) : List (List Nat) := chunk16Aux ws.length ws

/-- The bit length of the message as 8 big-endian bytes. -/
def lengthBytes (n : Nat) : List Nat :=
  [(n >>> 56) % 256, (n >>> 48) % 256, (n >>> 40) % 256, (n >>> 32) % 256,
   (n >>> 24) % 256, (n >>> 16) % 256, (n >>> 8) % 256, n % 256]

/-- SHA-256 padding: a `0x80` byte, zeros to 56 mod 64, and the bit length. -/
def padMessage (msg : List Nat) : List Nat :=
  let L := msg.length
  let z := (120 - (L + 1) % 64) % 64
  msg ++ [128] ++ List.replicate z 0 ++ lengthBytes (L * 8)

/-- The four big-endian bytes of a 32-bit word. -/
def word32Bytes (w : Nat) : List Nat :=
  [w / 16777216 % 256, w / 65536 % 256, w / 256 % 256, w % 256]

/-- The SHA-256 digest of a byte list, as 32 bytes. -/
def sha256Bytes (msg : List Nat) : List Nat :=
  let st := (chunk16 (bytesToWords (padMessage msg))).foldl compressBlock sha256H0
  word32Bytes st.a ++ word32Bytes st.b ++ word32Bytes st.c ++ word32Bytes st.d ++
  word32Bytes st.e ++ word32Bytes st.f ++ word32Bytes st.g ++ word32Bytes st.h

/-- The lowercase hexadecimal digits. -/
def hexChars : List Char := "0123456789abcdef".data

/-- The hexadecimal digit of a value taken modulo 16. -/
def hexDigitChar (n : Nat) : Char := hexChars.getD (n % 16) '0'

/-- Lowercase hexadecimal rendering of a byte list (`digest("hex")`). -/
def bytesToHex (bs : List Nat) : String :=
  String.mk ((bs.map (fun b => [hexDigitChar (b / 16), hexDigitChar b])).flatten)

/-- `createHash("sha256").update(s).digest("hex")` for a string. -/
def sha256hex (s : String) : String := bytesToHex (sha256Bytes (utf8Encode s))


/-! ## Image optimization cache key and cached handler -/

/-- A JavaScript `string | string[]` value, as `InternalEvent` query
parameters and `InternalResult` header values are typed. -/
inductive JsVal where
  | str (s : String)
  | arr (l : List String)
deriving DecidableEq

/-- Look a key up in a JS object modelled as an association list. -/
def objGet (o : List (String × JsVal)) (k : String) : Option JsVal :=
  (o.find? (fun p => p.1 = k)).map Prod.snd

/-- `Array.isArray(v) ? v[0] : v || dflt`: the extraction applied to each
of the `url`, `w` and `q` query parameters.  `none` models the JS
`undefined` produced by indexing an empty array. -/
def extractQueryParam (q : List (String × JsVal)) (name dflt : String) : Option String :=
  match objGet q name with
  | some (.arr l) => l.head?
  | some (.str s) => some (if s = "" then dflt else s)
  | none => some dflt

/-- `String.prototype.substring(a, b)`, on the character list. -/
def jsSubstring (s : String) (a b : Nat) : String :=
  String.mk ((s.data.drop a).take (b - a))

/-- `computeCacheKey`: `{sha256(url).substring(0,16)}/w{width}_q{quality}.cache`,
with `url` defaulting to `""`, `w` to `"0"` and `q` to `"75"`.  The result
is `none` when the url extraction yields `undefined`, which makes
`createHash(...).update(undefined)` throw. -/
def computeCacheKey (q : List (String × JsVal)) : Option String :=
  let width := jsInterp (extractQueryParam q "w" "0")
  let quality := jsInterp (extractQueryParam q "q" "75")
  match extractQueryParam q "url" "" with
  | none => none
  | some url =>
    let hash := jsSubstring (sha256hex url) 0 16
    some (hash ++ "/w" ++ width ++ "_q" ++ quality ++ ".cache")

/-- An OpenNext `InternalResult`: status code, headers with JS
string-or-array values, and an optional body stream given by its chunks. -/
structure InternalResult where
  statusCode : Nat
  headers : List (String × JsVal)
  body : Option (List (List Nat))
deriving DecidableEq

/-- `result.headers?.[k1] || result.headers?.[k2]` followed by
`Array.isArray(raw) ? raw[0] : raw || dflt`, as `setCachedImage` reads
the content-type and cache-control headers. -/
def headerOrDefault (hs : List (String × JsVal)) (k1 k2 dflt : String) : Option String :=
  let truthy : JsVal → Bool
    | .str s => s ≠ ""
    | .arr _ => true
  let raw : Option JsVal :=
    match objGet hs k1 with
    | some v => if truthy v then some v else objGet hs k2
    | none => objGet hs k2
  match raw with
  | some (.arr l) => l.head?
  | some (.str s) => some (if s = "" then dflt else s)
  | none => some dflt

/-- A blob write performed against the `optimized-images` container. -/
structure CacheWrite where
  key : String
  bytes : List Nat
  contentType : Option String
  cacheControl : Option String
deriving DecidableEq

/-- `setCachedImage`: skip silently when the result has no body; otherwise
buffer the body, derive content-type and cache-control, and upload, with
a failed upload logged and swallowed.  Returns the writes that reached
the container. -/
def setCachedImage (uploadOk : Bool) (cacheKey : String) (result : InternalResult) :
    List CacheWrite :=
  match result.body with
  | none => []
  | some chunks =>
    let buffer := chunks.flatten
    let contentType := headerOrDefault result.headers "Content-Type" "content-type" "image/webp"
    let cacheControl :=
      headerOrDefault result.headers "Cache-Control" "cache-control"
        "public,max-age=31536000,immutable"
    if uploadOk then [⟨cacheKey, buffer, contentType, cacheControl⟩] else []

/-- One invocation of the handler returned by
`createCachedImageOptimizationHandler`: compute the cache key (a throwing
key computation aborts the invocation, giving `none`), return a cache hit
directly, and otherwise run the wrapped handler, persisting its result
only when it has status 200 and a body.  Returns the result handed back
to the caller together with the writes that reached the cache. -/
def cachedImageOptimizationRun (q : List (String × JsVal))
    (cachedLookup : Option InternalResult) (uploadOk : Bool)
    (defaultResult : InternalResult) :
    Option (InternalResult × List CacheWrite) :=
  match computeCacheKey q with
  | none => none
  | some cacheKey =>
    match cachedLookup with
    | some cached => some (cached, [])
    | none =>
      let result := defaultResult
      if result.statusCode = 200 ∧ result.body ≠ none then
        match result.body with
        | some chunks =>
          let buffer := chunks.flatten
          let resultWithBuffer := { result with body := some [buffer] }
          some (resultWithBuffer, setCachedImage uploadOk cacheKey resultWithBuffer)
        | none => some (result, [])
      else some (result, [])

/-! ## Theorems -/

/-- Claim C1: the claim states that a request whose path begins with
`/_next/data/` is not short-circuited to blob storage.  The code contradicts
it: `STATIC_ASSET_PATTERNS` still contains `^\/_next\/data\/`, so the wrapper
answers such a request with a 301 redirect to the blob URL and the wrapped
handler pipeline is never reached. -/
theorem nextData_request_is_short_circuited :
    isStaticAssetRequest "/_next/data/page.json" = true ∧
    azureFunctionsHandlerRun (some "mystorage") "/_next/data/page.json" .noResponse =
      some { status := 301
             headers :=
               [("Location", "https://mystorage.blob.core.windows.net/assets/_next/data/page.json"),
                ("Cache-Control", "public, max-age=31536000, immutable")]
             body := none } := by
  constructor <;> decide

/-- Claim C2: the claim states that the 500 response body contains a `stack`
field only when a development flag is set.  The code contradicts it: the
wrapper consults no development flag and always serializes the thrown
error's stack, so the field is present whenever the thrown value is an
`Error` instance. -/
theorem error_response_includes_stack_unconditionally :
    azureFunctionsHandlerRun (some "mystorage") "/products/1"
        (.throws (.errObj "boom" (some "Error: boom"))) =
      some { status := 500
             headers := [("content-type", "application/json")]
             body := some (jsonObject
               [("error", some "Internal Server Error"),
                ("message", some "boom"),
                ("stack", some "Error: boom")]) } := by
  decide

/-- Claim C5: the claim states the redirect's Cache-Control is conditional on
the path, with non-`/_next/static/` assets getting a revalidate directive.
The code contradicts it: every matched static asset, here `/favicon.ico`,
is redirected with the same long-lived immutable directive. -/
theorem favicon_redirect_is_unconditionally_immutable :
    azureFunctionsHandlerRun (some "mystorage") "/favicon.ico" .noResponse =
      some { status := 301
             headers :=
               [("Location", "https://mystorage.blob.core.windows.net/assets/favicon.ico"),
                ("Cache-Control", "public, max-age=31536000, immutable")]
             body := none } := by
  decide

/-- Claim C4: for every status in the null-body set received in the
writeHeaders prelude, the final response carries no body field, whatever
chunks the handler writes to the returned sink and whether or not it
closes it. -/
theorem nullBodyStatus_response_has_no_body
    (accountName : Option String) (rawPath : String) (p : ResponsePrelude)
    (chunks : List (List Nat)) (closed : Bool)
    (hpath : isStaticAssetRequest rawPath = false)
    (hstatus : p.statusCode ∈ NULL_BODY_STATUSES) :
    azureFunctionsHandlerRun accountName rawPath (.responds p chunks closed) =
      some { status := p.statusCode, headers := responseHeadersOf p, body := none } := by
  simp [azureFunctionsHandlerRun, hpath, hstatus]

/-- Witness for claim C4 at status 304 with a written chunk. -/
theorem nullBodyStatus_response_has_no_body_witness :
    azureFunctionsHandlerRun (some "mystorage") "/blog"
        (.responds ⟨304, [], [("etag", "xyz")]⟩ [[104, 105]] true) =
      some { status := 304
             headers := responseHeadersOf ⟨304, [], [("etag", "xyz")]⟩
             body := none } :=
  nullBodyStatus_response_has_no_body (some "mystorage") "/blog" ⟨304, [], [("etag", "xyz")]⟩
    [[104, 105]] true (by decide) (by decide)

/-- Claim C6: feeding the stream adapter a 200 prelude with a text/plain
header and writing the chunks "foo" and "bar" before closing yields the
final response 200 with that header and body "foobar", the UTF-8 decoding
of the concatenated chunks. -/
theorem stream_adapter_round_trip_foobar :
    azureFunctionsHandlerRun (some "mystorage") "/some/page"
        (.responds ⟨200, [], [("content-type", "text/plain")]⟩
          [utf8Encode "foo", utf8Encode "bar"] true) =
      some { status := 200
             headers := [("content-type", "text/plain")]
             body := some "foobar" } := by
  decide

/-- Claim C7: when the wrapped handler completes without ever calling
writeHeaders, the wrapper still produces a complete fallback response:
status 200, a minimal content-type header, and an empty body. -/
theorem fallback_response_when_no_prelude
    (accountName : Option String) (rawPath : String)
    (hpath : isStaticAssetRequest rawPath = false) :
    azureFunctionsHandlerRun accountName rawPath .noResponse =
      some { status := 200, headers := [("content-type", "text/html")], body := some "" } := by
  simp [azureFunctionsHandlerRun, hpath]

/-- Witness for claim C7 at a dynamic route path. -/
theorem fallback_response_when_no_prelude_witness :
    azureFunctionsHandlerRun (some "mystorage") "/about" .noResponse =
      some { status := 200, headers := [("content-type", "text/html")], body := some "" } :=
  fallback_response_when_no_prelude (some "mystorage") "/about" (by decide)

/-- Claim C3 counterexample: a failed incremental-cache `set` (and a failed
queue `send`) is logged but then re-thrown, so the exception does reach
the caller, contradicting the claim that every failed cache write is
swallowed. -/
theorem incrementalCache_set_failure_propagates :
    (incCacheSet (Except.error ⟨none, "network unreachable"⟩)).1 =
      Except.error ⟨none, "network unreachable"⟩ ∧
    (azureQueueSend true (Except.error ⟨none, "network unreachable"⟩)).1 =
      Except.error ⟨none, "network unreachable"⟩ := by
  constructor <;> rfl

/-- Claim C3 as amended: a cache get whose storage call fails returns a
miss (`null`) — a failed blob download, a missing stream body, and a
failing JSON parse each yield `ok none`, and no outcome ever makes `get`
propagate an error — and a failed tag write is swallowed, but a failed
incremental-cache set or revalidation-queue send is logged and then
re-thrown to the caller (an unconfigured queue is the one send case that
is swallowed). -/
theorem cacheBackend_failure_behavior
    (e : ErrObj) (jsonParse : String → Except ErrObj String)
    (download : Except ErrObj DownloadOk) (lm : Option Nat)
    (chunks : List (List Nat)) (upserts : List (Except ErrObj Unit)) :
    (incCacheGet (Except.error e) jsonParse).1 = Except.ok none ∧
    (incCacheGet (Except.ok ⟨none, lm⟩) jsonParse).1 = Except.ok none ∧
    (incCacheGet (Except.ok ⟨some chunks, lm⟩) (fun _ => Except.error e)).1 =
      Except.ok none ∧
    (∃ v, (incCacheGet download jsonParse).1 = Except.ok v) ∧
    (tagCacheWriteTags upserts).1 = Except.ok () ∧
    (incCacheSet (Except.error e)).1 = Except.error e ∧
    (azureQueueSend true (Except.error e)).1 = Except.error e ∧
    (azureQueueSend false (Except.error e)).1 = Except.ok () := by
  refine ⟨?_, rfl, ?_, ?_, ?_, rfl, rfl, rfl⟩
  · simp only [incCacheGet]
    split <;> rfl
  · simp only [incCacheGet]
    split <;> rfl
  · cases download with
    | error err =>
      simp only [incCacheGet]
      split
      · exact ⟨none, rfl⟩
      · exact ⟨none, rfl⟩
    | ok d =>
      simp only [incCacheGet]
      cases hb : d.readableStreamBody with
      | none => exact ⟨none, rfl⟩
      | some bodyChunks =>
        cases hp : jsonParse (utf8ToString bodyChunks.flatten) with
        | error err =>
          simp only [hp]
          split
          · exact ⟨none, rfl⟩
          · exact ⟨none, rfl⟩
        | ok v => exact ⟨some (v, d.lastModified), by simp [hp]⟩
  · cases h : firstUpsertError upserts with
    | none => simp [tagCacheWriteTags, h]
    | some err => simp [tagCacheWriteTags, h]

/-- Stated from the spec's words, for comparison with `buildBlobKey`: the
cache key layout `[{containerPrefix}/][__fetch/][{buildId}/]{key}[.{cacheType}]`,
where a bracketed segment is present exactly when its value is, the
`__fetch/` segment is present exactly for fetch entries, and the
`.{cacheType}` suffix is appended exactly for non-fetch entries. -/
def specBlobKeyLayout (containerPrefix buildId : String) (isFetch : Bool)
    (key cacheType : String) : String :=
  (if containerPrefix ≠ "" then containerPrefix ++ "/" else "") ++
  (if isFetch then "__fetch/" else "") ++
  (if buildId ≠ "" then buildId ++ "/" else "") ++
  (if isFetch then key else key ++ ("." ++ cacheType))

/-- The configured container name is never empty: the environment variable
is defaulted to `"nextjs-cache"` before `buildBlobKey` sees it. -/
theorem azureConfigContainerName_ne_empty (env : Option String) :
    azureConfigContainerName env ≠ "" := by
  cases env with
  | none => decide
  | some s =>
    simp only [azureConfigContainerName, jsOrDefault]
    split
    · decide
    · assumption

/-- A key carrying the `.{cacheType}` suffix is never the empty string. -/
theorem keyPart_ne_empty (key ct : String) : key ++ "." ++ ct ≠ "" := by
  intro h
  have h2 := congrArg String.length h
  simp only [String.length_append] at h2
  have h3 : String.length "." = 1 := rfl
  rw [h3] at h2
  have h4 : String.length "" = 0 := rfl
  rw [h4] at h2
  omega


/-- `buildBlobKey` produces exactly the spec's bracketed layout for every
nonempty key. -/
theorem buildBlobKey_eq_layout (envC bid : Option String) (key ct : String)
    (hkey : key ≠ "") :
    buildBlobKey envC bid key ct =
      specBlobKeyLayout (azureConfigContainerName envC) (bid.getD "")
        (decide (ct = "fetch")) key ct := by
  have hpfx := azureConfigContainerName_ne_empty envC
  have hfe : ("__fetch" : String) ≠ "" := by decide
  have hkp : key ++ ("." ++ ct) ≠ "" := by
    rw [← String.append_assoc]
    exact keyPart_ne_empty key ct
  have hsplit : ("__fetch/" : String) = "__fetch" ++ "/" := rfl
  by_cases hct : ct = "fetch" <;> rcases bid with _ | b
  · simp only [buildBlobKey, specBlobKeyLayout, hct, hpfx, hkey, hfe, jsJoin,
      List.filterMap, List.filter, hsplit, String.append_assoc]
    simp [hpfx, hkey]
    rfl
  · by_cases hb : b = "" <;>
      (simp only [buildBlobKey, specBlobKeyLayout, hct, hpfx, hkey, hfe, hb, jsJoin,
        List.filterMap, List.filter, hsplit, String.append_assoc];
       simp [hpfx, hkey, hb]) <;> rfl
  · simp only [buildBlobKey, specBlobKeyLayout, hct, hpfx, hkey, hkp, jsJoin,
      List.filterMap, List.filter, String.append_assoc]
    simp [hpfx, hkey, hkp, hct, jsJoin]
  · by_cases hb : b = "" <;>
      (simp only [buildBlobKey, specBlobKeyLayout, hct, hpfx, hkey, hkp, hb, jsJoin,
        List.filterMap, List.filter, String.append_assoc];
       simp [hpfx, hkey, hkp, hct, hb, jsJoin])

/-- Claim C8: for every nonempty key and every cache type, the incremental
cache builds its blob key as
`[{containerPrefix}/][__fetch/][{buildId}/]{key}[.{cacheType}]` — the
`__fetch` segment present exactly for fetch entries, the `.{cacheType}`
suffix appended exactly for non-fetch entries, absent build-id segments
omitted without empty path components — and `get` and `set` of the same
`(key, cacheType)` address the same blob. -/
theorem incrementalCache_blobKey_layout
    (envContainerName nextBuildId : Option String) (key : String)
    (cacheType : Option String) (hkey : key ≠ "") :
    incCacheGetBlobKey envContainerName nextBuildId key cacheType =
      specBlobKeyLayout (azureConfigContainerName envContainerName)
        (nextBuildId.getD "") (decide (cacheType.getD "cache" = "fetch"))
        key (cacheType.getD "cache") ∧
    incCacheGetBlobKey envContainerName nextBuildId key cacheType =
      incCacheSetBlobKey envContainerName nextBuildId key cacheType :=
  ⟨buildBlobKey_eq_layout envContainerName nextBuildId key (cacheType.getD "cache") hkey, rfl⟩

/-- Witness for claim C8 at a concrete prefix, build id, key, and the
defaulted cache type. -/
theorem incrementalCache_blobKey_layout_witness :
    incCacheGetBlobKey (some "cachecont") (some "bld1") "/app/page" none =
      specBlobKeyLayout (azureConfigContainerName (some "cachecont"))
        ((some "bld1").getD "")
        (decide ((none : Option String).getD "cache" = "fetch"))
        "/app/page" ((none : Option String).getD "cache") ∧
    incCacheGetBlobKey (some "cachecont") (some "bld1") "/app/page" none =
      incCacheSetBlobKey (some "cachecont") (some "bld1") "/app/page" none :=
  incrementalCache_blobKey_layout (some "cachecont") (some "bld1") "/app/page" none (by decide)

/-- Every hexadecimal digit character is drawn from the fixed alphabet. -/
theorem hexDigitChar_mem (n : Nat) : hexDigitChar n ∈ hexChars := by
  have hb : n % 16 < 16 := Nat.mod_lt n (by norm_num)
  have hall : ∀ m, m < 16 → hexChars.getD m '0' ∈ hexChars := by decide
  exact hall (n % 16) hb

/-- Every character of a hexadecimal digest is a hexadecimal digit. -/
theorem bytesToHex_mem (bs : List Nat) :
    ∀ c ∈ (bytesToHex bs).data, c ∈ hexChars := by
  induction bs with
  | nil => intro c hc; simp [bytesToHex] at hc
  | cons b rest ih =>
    intro c hc
    simp only [bytesToHex, String.mk] at hc ih
    simp only [List.map_cons, List.flatten_cons] at hc
    rcases List.mem_append.mp hc with h | h
    · simp only [List.mem_cons, List.not_mem_nil, or_false] at h
      rcases h with h | h
      · exact h ▸ hexDigitChar_mem _
      · exact h ▸ hexDigitChar_mem _
    · exact ih c h

/-- The hexadecimal rendering has two characters per byte. -/
theorem bytesToHex_data_length (bs : List Nat) :
    (bytesToHex bs).data.length = 2 * bs.length := by
  induction bs with
  | nil => rfl
  | cons b rest ih =>
    simp only [bytesToHex, String.mk] at ih ⊢
    simp only [List.map_cons, List.flatten_cons, List.length_append, List.length_cons]
    simp only [List.length_cons, List.length_nil] at ih ⊢
    omega

/-- A SHA-256 digest is 32 bytes. -/
theorem sha256Bytes_length (msg : List Nat) : (sha256Bytes msg).length = 32 := by
  simp [sha256Bytes, word32Bytes]

/-- The image cache key of a well-formed single-valued query, explicitly. -/
theorem computeCacheKey_formula (url w v : String) (hw : w ≠ "") (hv : v ≠ "") :
    computeCacheKey [("url", JsVal.str url), ("w", JsVal.str w), ("q", JsVal.str v)] =
      some (jsSubstring (sha256hex url) 0 16 ++ "/w" ++ w ++ "_q" ++ v ++ ".cache") := by
  by_cases hu : url = "" <;>
    simp [computeCacheKey, extractQueryParam, objGet, jsInterp, hw, hv, hu]

/-- The number of characters of the 16-character digest prefix. -/
theorem hashPrefix_length (url : String) :
    (jsSubstring (sha256hex url) 0 16).length = 16 := by
  have h64 : (sha256hex url).data.length = 64 := by
    have h := bytesToHex_data_length (sha256Bytes (utf8Encode url))
    rw [sha256Bytes_length] at h
    simpa [sha256hex] using h
  show ((((sha256hex url).data.drop 0).take 16)).length = 16
  simp [List.length_take, h64]

/-- Every character of the digest prefix is a hexadecimal digit. -/
theorem hashPrefix_mem_hex (url : String) :
    ∀ c ∈ (jsSubstring (sha256hex url) 0 16).data, c ∈ hexChars := by
  intro c hc
  apply bytesToHex_mem (sha256Bytes (utf8Encode url))
  show c ∈ (sha256hex url).data
  have hc2 : c ∈ ((sha256hex url).data.drop 0).take 16 := hc
  rw [List.drop_zero] at hc2
  exact List.mem_of_mem_take hc2

/-- Claim C9: the image cache key is a pure function of the `(url, width,
quality)` triple — equal for the string and one-element-array query
representations — of the shape
`{sha256(url)[0:16]}/w{width}_q{quality}.cache`; its prefix before the
slash is 16 hexadecimal characters depending only on the url, and two
invocations differing only in a (nonempty) quality share that prefix and
differ in the suffix after it. -/
theorem imageCacheKey_deterministic (url w q1 q2 : String)
    (hw : w ≠ "") (hq1 : q1 ≠ "") (hq2 : q2 ≠ "") (hne : q1 ≠ q2) :
    computeCacheKey [("url", JsVal.str url), ("w", JsVal.str w), ("q", JsVal.str q1)] =
      some (jsSubstring (sha256hex url) 0 16 ++ "/w" ++ w ++ "_q" ++ q1 ++ ".cache") ∧
    computeCacheKey [("url", JsVal.str url), ("w", JsVal.str w), ("q", JsVal.str q2)] =
      some (jsSubstring (sha256hex url) 0 16 ++ "/w" ++ w ++ "_q" ++ q2 ++ ".cache") ∧
    computeCacheKey [("url", JsVal.arr [url]), ("w", JsVal.arr [w]), ("q", JsVal.arr [q1])] =
      computeCacheKey [("url", JsVal.str url), ("w", JsVal.str w), ("q", JsVal.str q1)] ∧
    (jsSubstring (sha256hex url) 0 16).length = 16 ∧
    (∀ c ∈ (jsSubstring (sha256hex url) 0 16).data, c ∈ hexChars) ∧
    '/' ∉ (jsSubstring (sha256hex url) 0 16).data ∧
    ("/w" ++ w ++ "_q" ++ q1 ++ ".cache" : String) ≠ "/w" ++ w ++ "_q" ++ q2 ++ ".cache" := by
  refine ⟨computeCacheKey_formula url w q1 hw hq1,
          computeCacheKey_formula url w q2 hw hq2, ?_,
          hashPrefix_length url, hashPrefix_mem_hex url, ?_, ?_⟩
  · rw [computeCacheKey_formula url w q1 hw hq1]
    by_cases hu : url = "" <;>
      simp [computeCacheKey, extractQueryParam, objGet, jsInterp, hu]
  · intro h
    have hmem := hashPrefix_mem_hex url '/' h
    simp [hexChars] at hmem
  · intro h
    apply hne
    have hd := congrArg String.data h
    simp only [String.data_append] at hd
    have h1 := List.append_cancel_right hd
    have h2 := List.append_cancel_left h1
    exact String.ext h2

/-- Witness for claim C9 at a concrete url, width, and two qualities. -/
theorem imageCacheKey_deterministic_witness :
    computeCacheKey
        [("url", JsVal.str "/photo.jpg"), ("w", JsVal.str "640"), ("q", JsVal.str "75")] =
      some (jsSubstring (sha256hex "/photo.jpg") 0 16 ++ "/w" ++ "640" ++ "_q" ++ "75" ++ ".cache") ∧
    computeCacheKey
        [("url", JsVal.str "/photo.jpg"), ("w", JsVal.str "640"), ("q", JsVal.str "80")] =
      some (jsSubstring (sha256hex "/photo.jpg") 0 16 ++ "/w" ++ "640" ++ "_q" ++ "80" ++ ".cache") ∧
    computeCacheKey
        [("url", JsVal.arr ["/photo.jpg"]), ("w", JsVal.arr ["640"]), ("q", JsVal.arr ["75"])] =
      computeCacheKey
        [("url", JsVal.str "/photo.jpg"), ("w", JsVal.str "640"), ("q", JsVal.str "75")] ∧
    (jsSubstring (sha256hex "/photo.jpg") 0 16).length = 16 ∧
    (∀ c ∈ (jsSubstring (sha256hex "/photo.jpg") 0 16).data, c ∈ hexChars) ∧
    '/' ∉ (jsSubstring (sha256hex "/photo.jpg") 0 16).data ∧
    ("/w" ++ "640" ++ "_q" ++ "75" ++ ".cache" : String) ≠ "/w" ++ "640" ++ "_q" ++ "80" ++ ".cache" :=
  imageCacheKey_deterministic "/photo.jpg" "640" "75" "80"
    (by decide) (by decide) (by decide) (by decide)

/-- Claim C10: on a cache miss, the cached image optimization handler
persists an entry only for a result with status 200 and a body; any
result with another status or no body is handed back to the caller
unchanged with no cache write performed. -/
theorem cachedImageHandler_writes_only_on_200
    (q : List (String × JsVal)) (ck : String) (hq : computeCacheKey q = some ck)
    (result : InternalResult) (uploadOk : Bool)
    (h : result.statusCode ≠ 200 ∨ result.body = none) :
    cachedImageOptimizationRun q none uploadOk result = some (result, []) := by
  have hcond : ¬(result.statusCode = 200 ∧ result.body ≠ none) := by
    rcases h with h | h
    · exact fun hc => h hc.1
    · exact fun hc => hc.2 h
  simp only [cachedImageOptimizationRun, hq]
  rw [if_neg hcond]

set_option maxRecDepth 100000 in
/-- Witness for claim C10 at a 404 result without a body. -/
theorem cachedImageHandler_writes_only_on_200_witness :
    cachedImageOptimizationRun [("url", JsVal.str "/photo.jpg")] none true
        ⟨404, [], none⟩ = some (⟨404, [], none⟩, []) :=
  cachedImageHandler_writes_only_on_200 [("url", JsVal.str "/photo.jpg")]
    "df88d63cc0731ab6/w0_q75.cache" (by rfl) ⟨404, [], none⟩ true (Or.inl (by decide))
